import Mathlib

/-!
Shallow embedding of the `tenantstore` package of `fiber-multitenant`
(file `store.go`, package `tenantstore`): a cache of per-tenant GORM
database connections keyed by tenant schema name.

Modelling choices:
* A `*gorm.DB` connection handle is identified by a `Nat` id; two handles
  are the same instance iff their ids are equal.
* Go's `map[string]*gorm.DB` and `map[string]bool` are association lists
  with the usual lookup/insert/erase semantics (keys are unique in every
  state the code constructs; a Go map read of a missing bool key yields
  the zero value `false`, modelled by `lookupD`).
* All external I/O performed through GORM (`gorm.Open`, `Exec`,
  `AutoMigrate`, `db.DB()`, `PingContext`, `Close`) is an oracle `Env`
  of pure functions deciding each call's outcome, so the embedded
  operations are deterministic state transformers.
* Each operation additionally returns the list of I/O `Event`s it
  performs synchronously — i.e. on the calling goroutine, before the Go
  function returns — and the list of `AsyncTask`s it spawns with `go`.
  The only `go` statement in the source is the debounce-flag reset in
  `healthCheckWithInterval` (it sleeps `HealthCheckInterval`, then sets
  `healthCheckDone[schema] = false`).
* Errors are an inductive with one constructor per `fmt.Errorf` site,
  carrying the distinguishing data; the Go message text is noted on each
  constructor.
* The embedding is sequential: a lock-protected critical section is one
  atomic step, so the double-checked re-lookup after upgrading to the
  write lock in `GetTenantDB` coincides with the first lookup and is not
  duplicated here.
-/

namespace FiberMultitenant

/-- Association-list lookup, modelling a Go map read `m[k]` with its
`, ok` form. -/
def lookupA {α : Type} (m : List (String × α)) (k : String) : Option α :=
  match m with
  | [] => none
  | (k', v) :: rest => if k' = k then some v else lookupA rest k

/-- Association-list insert, modelling Go map assignment `m[k] = v`
(overwrites an existing binding, otherwise appends). -/
def insertA {α : Type} (m : List (String × α)) (k : String) (v : α) :
    List (String × α) :=
  match m with
  | [] => [(k, v)]
  | (k', v') :: rest =>
    if k' = k then (k, v) :: rest else (k', v') :: insertA rest k v

/-- Association-list erase, modelling Go `delete(m, k)`. -/
def eraseA {α : Type} (m : List (String × α)) (k : String) :
    List (String × α) :=
  match m with
  | [] => []
  | (k', v') :: rest =>
    if k' = k then eraseA rest k else (k', v') :: eraseA rest k

/-- Go map read of a `map[string]bool` without the `, ok` form: a missing
key reads as the zero value `false`. -/
def lookupD (m : List (String × Bool)) (k : String) : Bool :=
  (lookupA m k).getD false

/-- One synchronous I/O call performed by the store, in program order.
`execSQL` is `(gorm.DB).Exec` on a given connection, `openConn` is
`gorm.Open(postgres.Open(dsn), ...)`, `autoMigrateModels` is
`tenantDB.AutoMigrate(models...)`, `pingConn` is `sqlDB.PingContext`,
`closeConn` is `sqlDB.Close`. -/
inductive Event : Type
  | execSQL (conn : Nat) (sql : String)
  | openConn (dsn : String)
  | autoMigrateModels (conn : Nat)
  | pingConn (conn : Nat)
  | closeConn (conn : Nat)
deriving DecidableEq, Repr

/-- A background goroutine spawned by the store. The source spawns exactly
one kind: after sleeping `HealthCheckInterval` it resets
`healthCheckDone[schemaName]` to `false`. -/
inductive AsyncTask : Type
  | resetHealthFlag (schemaName : String) (afterInterval : Nat)
deriving DecidableEq, Repr

/-- One error per tenant-connection close attempt inside `Close`,
mirroring the elements appended to the Go slice `errs`. -/
inductive CloseErr : Type
  | getTenantDBFailed (schemaName : String)
  | closeTenantFailed (schemaName : String)
  | getMasterDBFailed
  | closeMasterFailed
deriving DecidableEq, Repr

/-- The error values the store's methods return, one constructor per
`fmt.Errorf` site in the source (message text in the comment). -/
inductive GoErr : Type
  | emptySchema            -- "tenant schema cannot be empty"
  | ensureSchemaFailed     -- "failed to ensure schema: %w"
  | connectTenantFailed    -- "failed to connect to tenant database: %w"
  | autoMigrateFailed      -- "failed to auto-migrate models: %w"
  | getUnderlyingDBFailed  -- "failed to get underlying DB: %w"
  | closeConnFailed        -- "failed to close connection: %w"
  | closeErrors (errs : List CloseErr)  -- "errors closing connections: %v"
  | nilConfig              -- "config cannot be nil"
  | connectMasterFailed    -- "failed to connect to master database: %w"
deriving DecidableEq, Repr

/-- `Config` from the source. `modelsLen` stands for `len(config.Models)`
(only the length influences control flow); durations are abstract `Nat`
ticks; the GORM logger plays no role in the cache's behaviour and is
omitted. -/
structure Config : Type where
  masterDSN : String
  getTenantDSN : String → String
  autoMigrate : Bool
  modelsLen : Nat
  connectionTimeout : Nat
  healthCheckInterval : Nat

/-- `DefaultConfig` from the source (10 and 5 abstract ticks stand for
10 seconds and 5 minutes; the default `Models` slice is empty). -/
def DefaultConfig (masterDSN : String) : Config :=
  { masterDSN := masterDSN
    getTenantDSN := fun tenantSchema =>
      masterDSN ++ "&search_path=" ++ tenantSchema ++ ",public"
    autoMigrate := true
    modelsLen := 0
    connectionTimeout := 10
    healthCheckInterval := 5 }

/-- The oracle deciding every external call's outcome: `openConn dsn` is
`gorm.Open` (`none` = error), `execOk c sql` is whether `Exec sql` on
connection `c` succeeds, `autoMigrateOk c` whether `AutoMigrate`
succeeds on `c`, `dbOk c` whether `db.DB()` succeeds, `pingOk c` whether
`PingContext` succeeds, `closeOk c` whether `sqlDB.Close()` succeeds. -/
structure Env : Type where
  openConn : String → Option Nat
  execOk : Nat → String → Bool
  autoMigrateOk : Nat → Bool
  dbOk : Nat → Bool
  pingOk : Nat → Bool
  closeOk : Nat → Bool

/-- `TenantStore` from the source. The two mutexes protect the fields in
the running program; in this sequential embedding each method body is one
atomic step, so they need no counterpart. -/
structure TenantStore : Type where
  masterDB : Nat
  tenantDBs : List (String × Nat)
  healthCheckDone : List (String × Bool)
  config : Config

/-- The SQL string built by `ensureSchema`. -/
def createSchemaSQL (schemaName : String) : String :=
  "CREATE SCHEMA IF NOT EXISTS " ++ schemaName

/-- `New` from the source. A `nil` `*Config` argument is `none`. Returns
the result together with the synchronous I/O events performed. -/
def New (env : Env) (config : Option Config) :
    Except GoErr TenantStore × List Event :=
  match config with
  | none => (Except.error GoErr.nilConfig, [])
  | some cfg =>
    match env.openConn cfg.masterDSN with
    | none =>
      (Except.error GoErr.connectMasterFailed, [Event.openConn cfg.masterDSN])
    | some masterDB =>
      (Except.ok
        { masterDB := masterDB
          tenantDBs := []
          healthCheckDone := []
          config := cfg },
       [Event.openConn cfg.masterDSN])

/-- `GetMasterDB` from the source. -/
def TenantStore.GetMasterDB (s : TenantStore) : Nat :=
  s.masterDB

/-- `ensureSchema` from the source: `Exec` of `CREATE SCHEMA IF NOT
EXISTS <name>` on the master connection; returns whether it succeeded
and the I/O event. -/
def TenantStore.ensureSchema (env : Env) (s : TenantStore)
    (schemaName : String) : Bool × List Event :=
  (env.execOk s.masterDB (createSchemaSQL schemaName),
   [Event.execSQL s.masterDB (createSchemaSQL schemaName)])

/-- `healthCheckWithInterval` from the source: if the debounce flag for
the schema is clear, call `db.DB()` and, when that succeeds, ping the
connection synchronously; only on a successful ping set the flag and
spawn the goroutine that resets it after `HealthCheckInterval`. Returns
(new store, synchronous events, spawned tasks). -/
def TenantStore.healthCheckWithInterval (env : Env) (s : TenantStore)
    (tenantSchema : String) (db : Nat) :
    TenantStore × List Event × List AsyncTask :=
  if lookupD s.healthCheckDone tenantSchema then
    (s, [], [])
  else if env.dbOk db then
    if env.pingOk db then
      ({ s with healthCheckDone := insertA s.healthCheckDone tenantSchema true },
       [Event.pingConn db],
       [AsyncTask.resetHealthFlag tenantSchema s.config.healthCheckInterval])
    else
      (s, [Event.pingConn db], [])
  else
    (s, [], [])

/-- Effect of a spawned background task once it runs (after its sleep):
the flag reset `healthCheckDone[schemaName] = false`. -/
def runAsyncTask (s : TenantStore) (t : AsyncTask) : TenantStore :=
  match t with
  | AsyncTask.resetHealthFlag schemaName _ =>
    { s with healthCheckDone := insertA s.healthCheckDone schemaName false }

/-- Result of `GetTenantDB`: the returned `(db, err)` pair, the store
state afterwards, the synchronous I/O events, and the spawned tasks. -/
structure GetResult : Type where
  result : Except GoErr Nat
  store : TenantStore
  events : List Event
  tasks : List AsyncTask

/-- `GetTenantDB` from the source. The `ctx` argument only threads
through to the oracle calls and is dropped. The double-checked second
lookup under the write lock coincides with the first in this sequential
embedding. -/
def TenantStore.GetTenantDB (env : Env) (s : TenantStore)
    (tenantSchema : String) : GetResult :=
  if tenantSchema = "" then
    { result := Except.error GoErr.emptySchema
      store := s, events := [], tasks := [] }
  else
    match lookupA s.tenantDBs tenantSchema with
    | some db =>
      let hc := TenantStore.healthCheckWithInterval env s tenantSchema db
      { result := Except.ok db
        store := hc.1, events := hc.2.1, tasks := hc.2.2 }
    | none =>
      let ens := TenantStore.ensureSchema env s tenantSchema
      if ens.1 = false then
        { result := Except.error GoErr.ensureSchemaFailed
          store := s, events := ens.2, tasks := [] }
      else
        let tenantDSN := s.config.getTenantDSN tenantSchema
        match env.openConn tenantDSN with
        | none =>
          { result := Except.error GoErr.connectTenantFailed
            store := s, events := ens.2 ++ [Event.openConn tenantDSN]
            tasks := [] }
        | some tenantDB =>
          if s.config.autoMigrate ∧ 0 < s.config.modelsLen then
            if env.autoMigrateOk tenantDB then
              { result := Except.ok tenantDB
                store :=
                  { s with
                    tenantDBs := insertA s.tenantDBs tenantSchema tenantDB
                    healthCheckDone :=
                      insertA s.healthCheckDone tenantSchema false }
                events := ens.2 ++ [Event.openConn tenantDSN,
                                    Event.autoMigrateModels tenantDB]
                tasks := [] }
            else
              { result := Except.error GoErr.autoMigrateFailed
                store := s
                events := ens.2 ++ [Event.openConn tenantDSN,
                                    Event.autoMigrateModels tenantDB]
                tasks := [] }
          else
            { result := Except.ok tenantDB
              store :=
                { s with
                  tenantDBs := insertA s.tenantDBs tenantSchema tenantDB
                  healthCheckDone :=
                    insertA s.healthCheckDone tenantSchema false }
              events := ens.2 ++ [Event.openConn tenantDSN]
              tasks := [] }

/-- Result of `RemoveTenantDB`: returned error (if any), store state
afterwards, synchronous I/O events. -/
structure RemoveResult : Type where
  result : Except GoErr Unit
  store : TenantStore
  events : List Event

/-- `RemoveTenantDB` from the source: absent key is a no-op; otherwise
`db.DB()` then `Close()`, each failure returning early — the map entry
is deleted only after a successful close. -/
def TenantStore.RemoveTenantDB (env : Env) (s : TenantStore)
    (tenantSchema : String) : RemoveResult :=
  match lookupA s.tenantDBs tenantSchema with
  | none => { result := Except.ok (), store := s, events := [] }
  | some db =>
    if env.dbOk db = false then
      { result := Except.error GoErr.getUnderlyingDBFailed
        store := s, events := [] }
    else if env.closeOk db = false then
      { result := Except.error GoErr.closeConnFailed
        store := s, events := [Event.closeConn db] }
    else
      { result := Except.ok ()
        store :=
          { s with
            tenantDBs := eraseA s.tenantDBs tenantSchema
            healthCheckDone := eraseA s.healthCheckDone tenantSchema }
        events := [Event.closeConn db] }

/-- The loop body of `Close` over the cached tenant connections: for each
entry try `db.DB()` then `Close()`, appending one `CloseErr` per failure
and continuing; returns the accumulated errors and close events. (Go map
iteration order is unspecified; this processes the list in order, which
is one admissible order, and the claims below only use membership.) -/
def closeTenantLoop (env : Env) : List (String × Nat) →
    List CloseErr × List Event
  | [] => ([], [])
  | (schemaName, db) :: rest =>
    if env.dbOk db = false then
      (CloseErr.getTenantDBFailed schemaName :: (closeTenantLoop env rest).1,
       (closeTenantLoop env rest).2)
    else if env.closeOk db = false then
      (CloseErr.closeTenantFailed schemaName :: (closeTenantLoop env rest).1,
       Event.closeConn db :: (closeTenantLoop env rest).2)
    else
      ((closeTenantLoop env rest).1,
       Event.closeConn db :: (closeTenantLoop env rest).2)

/-- Result of `Close`: the returned error (aggregating `errs` when
non-empty), the store state afterwards, the synchronous I/O events, and
the raw accumulated `errs` slice. -/
structure CloseResult : Type where
  result : Except GoErr Unit
  store : TenantStore
  events : List Event
  errs : List CloseErr

/-- `Close` from the source: close every cached tenant connection
(accumulating failures), then the master connection; return an error
aggregating `errs` iff any accumulated. The source never deletes from or
reassigns `s.tenantDBs` here, so the store state is returned unchanged. -/
def TenantStore.Close (env : Env) (s : TenantStore) : CloseResult :=
  let t := closeTenantLoop env s.tenantDBs
  let m : List CloseErr × List Event :=
    if env.dbOk s.masterDB = false then
      ([CloseErr.getMasterDBFailed], [])
    else if env.closeOk s.masterDB = false then
      ([CloseErr.closeMasterFailed], [Event.closeConn s.masterDB])
    else
      ([], [Event.closeConn s.masterDB])
  let errs := t.1 ++ m.1
  { result :=
      if errs = [] then Except.ok () else Except.error (GoErr.closeErrors errs)
    store := s
    events := t.2 ++ m.2
    errs := errs }

/-- `GetAllTenantSchemas` from the source: the currently cached keys
(iteration order unspecified in Go; the list order here is one
admissible order). -/
def TenantStore.GetAllTenantSchemas (s : TenantStore) : List String :=
  s.tenantDBs.map Prod.fst

/-! ## Concrete fixtures used by witnesses and counterexamples -/

/-- A concrete config (the source's defaults over a fixed DSN). -/
def cfgTest : Config := DefaultConfig "host=localhost user=postgres"

/-- An oracle in which every external call succeeds; `gorm.Open` always
yields connection 9. -/
def envAllOk : Env :=
  { openConn := fun _ => some 9
    execOk := fun _ _ => true
    autoMigrateOk := fun _ => true
    dbOk := fun _ => true
    pingOk := fun _ => true
    closeOk := fun _ => true }

/-- Like `envAllOk` but every ping fails. -/
def envPingFails : Env := { envAllOk with pingOk := fun _ => false }

/-- Like `envAllOk` but every `sqlDB.Close()` fails. -/
def envCloseFails : Env := { envAllOk with closeOk := fun _ => false }

/-- Like `envAllOk` but every `gorm.Open` fails. -/
def envOpenFails : Env := { envAllOk with openConn := fun _ => none }

/-- A store caching one tenant: key `acme`, connection 7, debounce flag
clear; master connection 1. -/
def storeAcme : TenantStore :=
  { masterDB := 1
    tenantDBs := [("acme", 7)]
    healthCheckDone := [("acme", false)]
    config := cfgTest }

/-- A store with an empty cache; master connection 1. -/
def storeEmptyMap : TenantStore :=
  { masterDB := 1, tenantDBs := [], healthCheckDone := [], config := cfgTest }

deriving instance DecidableEq for Except

/-! ## Map lemmas -/

theorem lookupA_insertA_self {α : Type} (m : List (String × α)) (k : String)
    (v : α) : lookupA (insertA m k v) k = some v := by
  induction m with
  | nil => simp [insertA, lookupA]
  | cons hd tl ih =>
    obtain ⟨k', v'⟩ := hd
    by_cases hk : k' = k
    · simp [insertA, hk, lookupA]
    · simp [insertA, hk, lookupA, ih]

theorem lookupA_eraseA_self {α : Type} (m : List (String × α)) (k : String) :
    lookupA (eraseA m k) k = none := by
  induction m with
  | nil => simp [eraseA, lookupA]
  | cons hd tl ih =>
    obtain ⟨k', v'⟩ := hd
    by_cases hk : k' = k
    · simp [eraseA, hk, ih]
    · simp [eraseA, hk, lookupA, ih]

theorem lookupA_mem {α : Type} (m : List (String × α)) (k : String) (v : α)
    (h : lookupA m k = some v) : (k, v) ∈ m := by
  induction m with
  | nil => simp [lookupA] at h
  | cons hd tl ih =>
    obtain ⟨k', v'⟩ := hd
    by_cases hk : k' = k
    · simp [lookupA, hk] at h
      simp [hk, h]
    · simp [lookupA, hk] at h
      exact List.mem_cons_of_mem _ (ih h)

/-! ## Lemmas about the close loop -/

theorem closeTenantLoop_attempts (env : Env) (entries : List (String × Nat))
    (K : String) (db : Nat) (h : (K, db) ∈ entries)
    (hdb : env.dbOk db = true) :
    Event.closeConn db ∈ (closeTenantLoop env entries).2 := by
  induction entries with
  | nil => simp at h
  | cons hd tl ih =>
    obtain ⟨k', c⟩ := hd
    rcases List.mem_cons.mp h with heq | hmem
    · cases heq
      rcases hc : env.closeOk db with _ | _ <;>
        simp [closeTenantLoop, hdb, hc]
    · have ihh := ih hmem
      rcases hd1 : env.dbOk c with _ | _ <;>
        rcases hc1 : env.closeOk c with _ | _ <;>
          simp [closeTenantLoop, hd1, hc1, ihh]

theorem closeTenantLoop_close_failure_recorded (env : Env)
    (entries : List (String × Nat)) (K : String) (db : Nat)
    (h : (K, db) ∈ entries) (hdb : env.dbOk db = true)
    (hcl : env.closeOk db = false) :
    CloseErr.closeTenantFailed K ∈ (closeTenantLoop env entries).1 := by
  induction entries with
  | nil => simp at h
  | cons hd tl ih =>
    obtain ⟨k', c⟩ := hd
    rcases List.mem_cons.mp h with heq | hmem
    · cases heq
      simp [closeTenantLoop, hdb, hcl]
    · have ihh := ih hmem
      rcases hd1 : env.dbOk c with _ | _ <;>
        rcases hc1 : env.closeOk c with _ | _ <;>
          simp [closeTenantLoop, hd1, hc1, ihh]

theorem closeTenantLoop_handle_failure_recorded (env : Env)
    (entries : List (String × Nat)) (K : String) (db : Nat)
    (h : (K, db) ∈ entries) (hdb : env.dbOk db = false) :
    CloseErr.getTenantDBFailed K ∈ (closeTenantLoop env entries).1 := by
  induction entries with
  | nil => simp at h
  | cons hd tl ih =>
    obtain ⟨k', c⟩ := hd
    rcases List.mem_cons.mp h with heq | hmem
    · cases heq
      simp [closeTenantLoop, hdb]
    · have ihh := ih hmem
      rcases hd1 : env.dbOk c with _ | _ <;>
        rcases hc1 : env.closeOk c with _ | _ <;>
          simp [closeTenantLoop, hd1, hc1, ihh]

/-! ## Lemmas about the health check -/

theorem healthCheck_tenantDBs_unchanged (env : Env) (s : TenantStore)
    (K : String) (db : Nat) :
    (TenantStore.healthCheckWithInterval env s K db).1.tenantDBs =
      s.tenantDBs ∧
    ((TenantStore.healthCheckWithInterval env s K db).2.1 = [] ∨
     (TenantStore.healthCheckWithInterval env s K db).2.1 =
       [Event.pingConn db]) := by
  unfold TenantStore.healthCheckWithInterval
  rcases h1 : lookupD s.healthCheckDone K with _ | _
  · rcases h2 : env.dbOk db with _ | _
    · simp [h1, h2]
    · rcases h3 : env.pingOk db with _ | _ <;> simp [h1, h2, h3]
  · simp [h1]

theorem getTenantDB_hit_eq (env : Env) (s : TenantStore) (K : String)
    (db : Nat) (hK : K ≠ "") (h : lookupA s.tenantDBs K = some db) :
    TenantStore.GetTenantDB env s K =
      { result := Except.ok db
        store := (TenantStore.healthCheckWithInterval env s K db).1
        events := (TenantStore.healthCheckWithInterval env s K db).2.1
        tasks := (TenantStore.healthCheckWithInterval env s K db).2.2 } := by
  unfold TenantStore.GetTenantDB
  simp [hK, h]

/-! ## Claims -/

/-- C1: for a tenant key already cached, `GetTenantDB` returns the cached
connection instance, leaves the connection map unchanged (so every later
call while the record is live returns that same instance), and performs
no provisioning `Exec` and no connection open. -/
theorem getTenantDB_hit_returns_cached_without_construction
    (env : Env) (s : TenantStore) (K : String) (db : Nat)
    (hK : K ≠ "") (h : lookupA s.tenantDBs K = some db) :
    (TenantStore.GetTenantDB env s K).result = Except.ok db ∧
    (TenantStore.GetTenantDB env s K).store.tenantDBs = s.tenantDBs ∧
    (∀ c sql, Event.execSQL c sql ∉ (TenantStore.GetTenantDB env s K).events) ∧
    (∀ dsn, Event.openConn dsn ∉ (TenantStore.GetTenantDB env s K).events) := by
  obtain ⟨hdbs, hev⟩ := healthCheck_tenantDBs_unchanged env s K db
  rw [getTenantDB_hit_eq env s K db hK h]
  refine ⟨rfl, hdbs, ?_, ?_⟩
  · intro c sql
    rcases hev with he | he <;> simp [he]
  · intro dsn
    rcases hev with he | he <;> simp [he]

/-- Witness for C1 at a concrete input: key `acme` cached as connection 7
under an all-healthy oracle. -/
theorem getTenantDB_hit_returns_cached_without_construction_witness :
    ("acme" : String) ≠ "" ∧
    lookupA storeAcme.tenantDBs "acme" = some 7 ∧
    (TenantStore.GetTenantDB envAllOk storeAcme "acme").result =
      Except.ok 7 ∧
    (TenantStore.GetTenantDB envAllOk storeAcme "acme").store.tenantDBs =
      storeAcme.tenantDBs :=
  ⟨by decide, by decide,
   (getTenantDB_hit_returns_cached_without_construction envAllOk storeAcme
      "acme" 7 (by decide) (by decide)).1,
   (getTenantDB_hit_returns_cached_without_construction envAllOk storeAcme
      "acme" 7 (by decide) (by decide)).2.1⟩

/-- C2 is false of the source: the liveness re-check is not scheduled off
the critical path. On a cache hit with the debounce flag clear the ping
is performed synchronously by the calling task — it appears in the list
of I/O events the call performs before returning — so the caller does
wait on the probe. Falsified at the concrete hit `Get("acme")`. -/
theorem getTenantDB_hit_ping_not_async_cex :
    ¬ (∀ (env : Env) (s : TenantStore) (K : String) (db : Nat),
        K ≠ "" → lookupA s.tenantDBs K = some db →
        ∀ c, Event.pingConn c ∉ (TenantStore.GetTenantDB env s K).events) := by
  intro hclaim
  exact hclaim envAllOk storeAcme "acme" 7 (by decide) (by decide) 7 (by decide)

/-- C2 amended: on the hit path `GetTenantDB` returns the cached
connection, but when the debounce flag is clear and the handle is
obtainable the liveness ping is performed synchronously by the calling
task before the call returns; the only work scheduled asynchronously is
the debounce-flag reset after the interval, and only after a successful
ping. -/
theorem getTenantDB_hit_ping_synchronous
    (env : Env) (s : TenantStore) (K : String) (db : Nat)
    (hK : K ≠ "") (h : lookupA s.tenantDBs K = some db)
    (hflag : lookupD s.healthCheckDone K = false)
    (hdb : env.dbOk db = true) :
    (TenantStore.GetTenantDB env s K).result = Except.ok db ∧
    (TenantStore.GetTenantDB env s K).events = [Event.pingConn db] ∧
    (env.pingOk db = true →
      (TenantStore.GetTenantDB env s K).tasks =
        [AsyncTask.resetHealthFlag K s.config.healthCheckInterval]) ∧
    (env.pingOk db = false → (TenantStore.GetTenantDB env s K).tasks = []) := by
  rw [getTenantDB_hit_eq env s K db hK h]
  unfold TenantStore.healthCheckWithInterval
  rcases hp : env.pingOk db with _ | _ <;> simp [hflag, hdb, hp]

/-- Witness for the amended C2 at the concrete hit `Get("acme")` with the
flag clear: the ping is in the synchronous event list. -/
theorem getTenantDB_hit_ping_synchronous_witness :
    (TenantStore.GetTenantDB envAllOk storeAcme "acme").result =
      Except.ok 7 ∧
    (TenantStore.GetTenantDB envAllOk storeAcme "acme").events =
      [Event.pingConn 7] :=
  ⟨(getTenantDB_hit_ping_synchronous envAllOk storeAcme "acme" 7 (by decide)
      (by decide) (by decide) (by decide)).1,
   (getTenantDB_hit_ping_synchronous envAllOk storeAcme "acme" 7 (by decide)
      (by decide) (by decide) (by decide)).2.1⟩

/-- C3: on a cache miss, each construction failure (provisioning `Exec`,
tenant connection open, or the enabled migration step) makes
`GetTenantDB` return the corresponding error with the store unchanged —
no record inserted — and a subsequent call for the still-absent key runs
provisioning again and, when provisioning succeeds, opens a connection
again (retry from scratch, never a half-initialized state). -/
theorem getTenantDB_slow_path_failure_no_partial_state
    (env env2 : Env) (s : TenantStore) (K : String)
    (hK : K ≠ "") (habs : lookupA s.tenantDBs K = none) :
    (env.execOk s.masterDB (createSchemaSQL K) = false →
      (TenantStore.GetTenantDB env s K).result =
        Except.error GoErr.ensureSchemaFailed ∧
      (TenantStore.GetTenantDB env s K).store = s) ∧
    (env.execOk s.masterDB (createSchemaSQL K) = true →
      env.openConn (s.config.getTenantDSN K) = none →
      (TenantStore.GetTenantDB env s K).result =
        Except.error GoErr.connectTenantFailed ∧
      (TenantStore.GetTenantDB env s K).store = s) ∧
    (∀ db, env.execOk s.masterDB (createSchemaSQL K) = true →
      env.openConn (s.config.getTenantDSN K) = some db →
      (s.config.autoMigrate ∧ 0 < s.config.modelsLen) →
      env.autoMigrateOk db = false →
      (TenantStore.GetTenantDB env s K).result =
        Except.error GoErr.autoMigrateFailed ∧
      (TenantStore.GetTenantDB env s K).store = s) ∧
    (Event.execSQL s.masterDB (createSchemaSQL K) ∈
      (TenantStore.GetTenantDB env2 s K).events) ∧
    (env2.execOk s.masterDB (createSchemaSQL K) = true →
      Event.openConn (s.config.getTenantDSN K) ∈
        (TenantStore.GetTenantDB env2 s K).events) := by
  refine ⟨?_, ?_, ?_, ?_, ?_⟩
  · intro hex
    unfold TenantStore.GetTenantDB
    simp [hK, habs, TenantStore.ensureSchema, hex]
  · intro hex hop
    unfold TenantStore.GetTenantDB
    simp [hK, habs, TenantStore.ensureSchema, hex, hop]
  · intro db hex hop hmig hmok
    unfold TenantStore.GetTenantDB
    simp [hK, habs, TenantStore.ensureSchema, hex, hop, hmig, hmok]
  · unfold TenantStore.GetTenantDB
    rcases hex2 : env2.execOk s.masterDB (createSchemaSQL K) with _ | _
    · simp [hK, habs, TenantStore.ensureSchema, hex2]
    · rcases hop2 : env2.openConn (s.config.getTenantDSN K) with _ | db2
      · simp [hK, habs, TenantStore.ensureSchema, hex2, hop2]
      · by_cases hmig2 : s.config.autoMigrate ∧ 0 < s.config.modelsLen
        · rcases hmok2 : env2.autoMigrateOk db2 with _ | _ <;>
            simp [hK, habs, TenantStore.ensureSchema, hex2, hop2, hmig2, hmok2]
        · simp [hK, habs, TenantStore.ensureSchema, hex2, hop2, hmig2]
  · intro hex2
    unfold TenantStore.GetTenantDB
    rcases hop2 : env2.openConn (s.config.getTenantDSN K) with _ | db2
    · simp [hK, habs, TenantStore.ensureSchema, hex2, hop2]
    · by_cases hmig2 : s.config.autoMigrate ∧ 0 < s.config.modelsLen
      · rcases hmok2 : env2.autoMigrateOk db2 with _ | _ <;>
          simp [hK, habs, TenantStore.ensureSchema, hex2, hop2, hmig2, hmok2]
      · simp [hK, habs, TenantStore.ensureSchema, hex2, hop2, hmig2]

/-- Witness for C3 at a concrete input: the open fails for key `beta` on
an empty cache, the error surfaces, the store is unchanged, and a retry
provisions again. -/
theorem getTenantDB_slow_path_failure_no_partial_state_witness :
    (TenantStore.GetTenantDB envOpenFails storeEmptyMap "beta").result =
      Except.error GoErr.connectTenantFailed ∧
    (TenantStore.GetTenantDB envOpenFails storeEmptyMap "beta").store =
      storeEmptyMap ∧
    Event.execSQL 1 (createSchemaSQL "beta") ∈
      (TenantStore.GetTenantDB envAllOk storeEmptyMap "beta").events := by
  have hthm := getTenantDB_slow_path_failure_no_partial_state envOpenFails
    envAllOk storeEmptyMap "beta" (by decide) (by decide)
  exact ⟨(hthm.2.1 (by decide) (by decide)).1,
         (hthm.2.1 (by decide) (by decide)).2,
         hthm.2.2.2.1⟩

/-- C4 is false of the source: `Close` never clears the tenant map. Even
in a run where every close succeeds (no errors are accumulated) the
previously cached key is still listed afterwards. -/
theorem close_map_not_cleared_cex :
    (TenantStore.Close envAllOk storeAcme).errs = [] ∧
    TenantStore.GetAllTenantSchemas
      (TenantStore.Close envAllOk storeAcme).store ≠ [] := by
  decide

/-- C4 amended: after `Close` every cached connection whose handle is
obtainable has had its close attempted (as has the master's), regardless
of individual failures, but the record map is NOT cleared: the store —
hence the schema listing — is unchanged. -/
theorem close_keeps_map_but_attempts_all (env : Env) (s : TenantStore) :
    (TenantStore.Close env s).store = s ∧
    TenantStore.GetAllTenantSchemas (TenantStore.Close env s).store =
      TenantStore.GetAllTenantSchemas s ∧
    (∀ K db, lookupA s.tenantDBs K = some db → env.dbOk db = true →
      Event.closeConn db ∈ (TenantStore.Close env s).events) ∧
    (env.dbOk s.masterDB = true →
      Event.closeConn s.masterDB ∈ (TenantStore.Close env s).events) := by
  refine ⟨rfl, rfl, ?_, ?_⟩
  · intro K db hl hdb
    have hatt := closeTenantLoop_attempts env s.tenantDBs K db
      (lookupA_mem s.tenantDBs K db hl) hdb
    unfold TenantStore.Close
    simp only [List.mem_append]
    exact Or.inl hatt
  · intro hm
    unfold TenantStore.Close
    rcases hc : env.closeOk s.masterDB with _ | _ <;> simp [hm, hc]

/-- Witness for the amended C4 at a concrete input: with every close
failing, the store is unchanged and the cached connection's close was
still attempted. -/
theorem close_keeps_map_but_attempts_all_witness :
    (TenantStore.Close envCloseFails storeAcme).store = storeAcme ∧
    Event.closeConn 7 ∈ (TenantStore.Close envCloseFails storeAcme).events :=
  ⟨(close_keeps_map_but_attempts_all envCloseFails storeAcme).1,
   (close_keeps_map_but_attempts_all envCloseFails storeAcme).2.2.1 "acme" 7
     (by decide) (by decide)⟩

/-- C5 is false of the source: when the close fails, `RemoveTenantDB`
returns the close error but does NOT drop the record — the entry for
`acme` survives in the map. -/
theorem removeTenantDB_close_failure_keeps_entry_cex :
    (TenantStore.RemoveTenantDB envCloseFails storeAcme "acme").result =
      Except.error GoErr.closeConnFailed ∧
    lookupA (TenantStore.RemoveTenantDB
      envCloseFails storeAcme "acme").store.tenantDBs "acme" = some 7 := by
  decide

/-- C5 amended: for a present key `RemoveTenantDB` closes the underlying
connection; on close success the record is deleted; on close failure the
error is propagated and the record remains in the map — the entry is
deleted only when the close succeeds. -/
theorem removeTenantDB_present_close_gates_delete
    (env : Env) (s : TenantStore) (K : String) (db : Nat)
    (h : lookupA s.tenantDBs K = some db) (hdb : env.dbOk db = true) :
    Event.closeConn db ∈ (TenantStore.RemoveTenantDB env s K).events ∧
    (env.closeOk db = true →
      (TenantStore.RemoveTenantDB env s K).result = Except.ok () ∧
      lookupA (TenantStore.RemoveTenantDB env s K).store.tenantDBs K =
        none) ∧
    (env.closeOk db = false →
      (TenantStore.RemoveTenantDB env s K).result =
        Except.error GoErr.closeConnFailed ∧
      (TenantStore.RemoveTenantDB env s K).store = s) := by
  unfold TenantStore.RemoveTenantDB
  rcases hc : env.closeOk db with _ | _ <;>
    simp [h, hdb, hc, lookupA_eraseA_self]

/-- Witness for the amended C5 at a concrete input: the close of `acme`'s
connection fails, the error is propagated, and the close was attempted. -/
theorem removeTenantDB_present_close_gates_delete_witness :
    Event.closeConn 7 ∈
      (TenantStore.RemoveTenantDB envCloseFails storeAcme "acme").events ∧
    (TenantStore.RemoveTenantDB envCloseFails storeAcme "acme").result =
      Except.error GoErr.closeConnFailed :=
  ⟨(removeTenantDB_present_close_gates_delete envCloseFails storeAcme "acme"
      7 (by decide) (by decide)).1,
   ((removeTenantDB_present_close_gates_delete envCloseFails storeAcme "acme"
      7 (by decide) (by decide)).2.2 (by decide)).1⟩

/-- C6: `Close` attempts to close every cached tenant connection (when
its handle is obtainable) and then the master connection, accumulating
one recorded error per individual failure — handle failures and close
failures alike — instead of stopping at the first, and returns success
exactly when no failure was accumulated. -/
theorem close_accumulates_every_failure (env : Env) (s : TenantStore) :
    (∀ K db, lookupA s.tenantDBs K = some db → env.dbOk db = true →
      Event.closeConn db ∈ (TenantStore.Close env s).events) ∧
    (env.dbOk s.masterDB = true →
      Event.closeConn s.masterDB ∈ (TenantStore.Close env s).events) ∧
    (∀ K db, lookupA s.tenantDBs K = some db → env.dbOk db = true →
      env.closeOk db = false →
      CloseErr.closeTenantFailed K ∈ (TenantStore.Close env s).errs) ∧
    (∀ K db, lookupA s.tenantDBs K = some db → env.dbOk db = false →
      CloseErr.getTenantDBFailed K ∈ (TenantStore.Close env s).errs) ∧
    (env.dbOk s.masterDB = true → env.closeOk s.masterDB = false →
      CloseErr.closeMasterFailed ∈ (TenantStore.Close env s).errs) ∧
    ((TenantStore.Close env s).errs = [] ↔
      (TenantStore.Close env s).result = Except.ok ()) := by
  refine ⟨?_, ?_, ?_, ?_, ?_, ?_⟩
  · intro K db hl hdb
    have hatt := closeTenantLoop_attempts env s.tenantDBs K db
      (lookupA_mem s.tenantDBs K db hl) hdb
    unfold TenantStore.Close
    simp only [List.mem_append]
    exact Or.inl hatt
  · intro hm
    unfold TenantStore.Close
    rcases hc : env.closeOk s.masterDB with _ | _ <;> simp [hm, hc]
  · intro K db hl hdb hcl
    have hrec := closeTenantLoop_close_failure_recorded env s.tenantDBs K db
      (lookupA_mem s.tenantDBs K db hl) hdb hcl
    unfold TenantStore.Close
    simp only [List.mem_append]
    exact Or.inl hrec
  · intro K db hl hdb
    have hrec := closeTenantLoop_handle_failure_recorded env s.tenantDBs K db
      (lookupA_mem s.tenantDBs K db hl) hdb
    unfold TenantStore.Close
    simp only [List.mem_append]
    exact Or.inl hrec
  · intro hm hcl
    unfold TenantStore.Close
    simp [hm, hcl]
  · have hres : (TenantStore.Close env s).result =
        (if (TenantStore.Close env s).errs = [] then Except.ok ()
         else Except.error (GoErr.closeErrors
           ((TenantStore.Close env s).errs))) := rfl
    rw [hres]
    by_cases h : (TenantStore.Close env s).errs = [] <;> simp [h]

/-- Witness for C6 at a concrete input: with every close failing, both
the cached tenant's close failure and the master's are accumulated. -/
theorem close_accumulates_every_failure_witness :
    CloseErr.closeTenantFailed "acme" ∈
      (TenantStore.Close envCloseFails storeAcme).errs ∧
    CloseErr.closeMasterFailed ∈
      (TenantStore.Close envCloseFails storeAcme).errs :=
  ⟨(close_accumulates_every_failure envCloseFails storeAcme).2.2.1 "acme" 7
     (by decide) (by decide) (by decide),
   (close_accumulates_every_failure envCloseFails storeAcme).2.2.2.2.1
     (by decide) (by decide)⟩

/-- C7 is false of the source in its "regardless of the probe's outcome"
part: after a probe that ran and failed (the ping event is present), the
verification state is not updated — the debounce flag stays exactly as
it was (clear) and no reset task is scheduled. -/
theorem health_probe_failed_no_update_cex :
    (TenantStore.healthCheckWithInterval envPingFails storeAcme "acme"
      7).2.1 = [Event.pingConn 7] ∧
    (TenantStore.healthCheckWithInterval envPingFails storeAcme "acme"
      7).1.healthCheckDone = storeAcme.healthCheckDone ∧
    (TenantStore.healthCheckWithInterval envPingFails storeAcme "acme"
      7).2.2 = [] := by
  decide

/-- C7 amended: a probe failure is never surfaced to the `Get` caller
(the hit path still returns the cached connection) and never evicts the
entry; the verification flag is updated — set, with its interval reset
scheduled — only when the probe succeeds, while a failed probe leaves
the store unchanged and schedules nothing. -/
theorem health_probe_failure_swallowed
    (env : Env) (s : TenantStore) (K : String) (db : Nat)
    (hK : K ≠ "") (h : lookupA s.tenantDBs K = some db) :
    (TenantStore.GetTenantDB env s K).result = Except.ok db ∧
    (TenantStore.GetTenantDB env s K).store.tenantDBs = s.tenantDBs ∧
    (env.pingOk db = false →
      (TenantStore.GetTenantDB env s K).store = s ∧
      (TenantStore.GetTenantDB env s K).tasks = []) ∧
    (lookupD s.healthCheckDone K = false → env.dbOk db = true →
      env.pingOk db = true →
      lookupD (TenantStore.GetTenantDB env s K).store.healthCheckDone K =
        true ∧
      (TenantStore.GetTenantDB env s K).tasks =
        [AsyncTask.resetHealthFlag K s.config.healthCheckInterval]) := by
  obtain ⟨hdbs, _⟩ := healthCheck_tenantDBs_unchanged env s K db
  rw [getTenantDB_hit_eq env s K db hK h]
  refine ⟨rfl, hdbs, ?_, ?_⟩
  · intro hp
    unfold TenantStore.healthCheckWithInterval
    rcases h1 : lookupD s.healthCheckDone K with _ | _
    · rcases h2 : env.dbOk db with _ | _ <;> simp [h1, h2, hp]
    · simp [h1]
  · intro h1 h2 h3
    unfold TenantStore.healthCheckWithInterval
    simp only [lookupD] at h1
    simp [h1, h2, h3, lookupD, lookupA_insertA_self]

/-- Witness for the amended C7 at a concrete input: the ping for `acme`
fails, yet `Get` returns the cached connection with the store unchanged
and nothing scheduled. -/
theorem health_probe_failure_swallowed_witness :
    (TenantStore.GetTenantDB envPingFails storeAcme "acme").result =
      Except.ok 7 ∧
    (TenantStore.GetTenantDB envPingFails storeAcme "acme").store =
      storeAcme ∧
    (TenantStore.GetTenantDB envPingFails storeAcme "acme").tasks = [] := by
  have hthm := health_probe_failure_swallowed envPingFails storeAcme "acme" 7
    (by decide) (by decide)
  exact ⟨hthm.1, (hthm.2.2.1 (by decide)).1, (hthm.2.2.1 (by decide)).2⟩

/-- C8: `GetTenantDB` with the empty key fails with the empty-schema
error and does nothing at all — state unchanged, no I/O events (in
particular no provisioning attempt and no insertion), no tasks. -/
theorem getTenantDB_empty_key_rejected (env : Env) (s : TenantStore) :
    (TenantStore.GetTenantDB env s "").result =
      Except.error GoErr.emptySchema ∧
    (TenantStore.GetTenantDB env s "").store = s ∧
    (TenantStore.GetTenantDB env s "").events = [] ∧
    (TenantStore.GetTenantDB env s "").tasks = [] :=
  ⟨rfl, rfl, rfl, rfl⟩

/-- C9: `RemoveTenantDB` on an absent key is a no-op success, and after
any successful `RemoveTenantDB` the key is absent, so an immediately
repeated `RemoveTenantDB` also succeeds (under any oracle). -/
theorem removeTenantDB_absent_noop_idempotent
    (env env2 : Env) (s : TenantStore) (K : String) :
    (lookupA s.tenantDBs K = none →
      (TenantStore.RemoveTenantDB env s K).result = Except.ok () ∧
      (TenantStore.RemoveTenantDB env s K).store = s) ∧
    ((TenantStore.RemoveTenantDB env s K).result = Except.ok () →
      (TenantStore.RemoveTenantDB env2
          (TenantStore.RemoveTenantDB env s K).store K).result =
        Except.ok ()) := by
  constructor
  · intro habs
    unfold TenantStore.RemoveTenantDB
    simp [habs]
  · intro hok
    rcases hl : lookupA s.tenantDBs K with _ | db
    · unfold TenantStore.RemoveTenantDB
      simp [hl]
    · rcases hdb : env.dbOk db with _ | _
      · exfalso
        unfold TenantStore.RemoveTenantDB at hok
        simp [hl, hdb] at hok
      · rcases hc : env.closeOk db with _ | _
        · exfalso
          unfold TenantStore.RemoveTenantDB at hok
          simp [hl, hdb, hc] at hok
        · unfold TenantStore.RemoveTenantDB
          simp [hl, hdb, hc, lookupA_eraseA_self]

/-- Witness for C9 at a concrete input: removing the absent key `zeta`
twice succeeds both times with the store untouched. -/
theorem removeTenantDB_absent_noop_idempotent_witness :
    (TenantStore.RemoveTenantDB envAllOk storeEmptyMap "zeta").result =
      Except.ok () ∧
    (TenantStore.RemoveTenantDB envAllOk storeEmptyMap "zeta").store =
      storeEmptyMap ∧
    (TenantStore.RemoveTenantDB envAllOk
      (TenantStore.RemoveTenantDB envAllOk storeEmptyMap "zeta").store
      "zeta").result = Except.ok () := by
  have hthm := removeTenantDB_absent_noop_idempotent envAllOk envAllOk
    storeEmptyMap "zeta"
  have h1 := hthm.1 (by decide)
  exact ⟨h1.1, h1.2, hthm.2 h1.1⟩

/-- C10: `New` with a nil config returns the nil-config error and no
store, performing no I/O at all — in particular the master connection
open is never attempted (the nil branch makes construction total on this
input). -/
theorem new_nil_config_total (env : Env) :
    New env none = (Except.error GoErr.nilConfig, []) :=
  rfl

end FiberMultitenant
